import Mathlib

/-!
Shallow embedding of the Benfica-Calendar parsing core
(`src/Parsing/parsing.py` together with the keyword configuration in
`src/Parsing/config.py`), and proofs settling the frozen claims about it.

Strings are modelled as Lean `String` / `List Char`.  Python's `str.lower`
is modelled for ASCII and the Latin-1 letter block (the whole vocabulary of
the program: Portuguese text plus emoji, which `lower` leaves unchanged);
`str.strip` and the regex classes `\s`, `\w`, `\d` are modelled over ASCII
whitespace, ASCII/Latin-1 word characters and ASCII digits, which again
covers every character the program's keyword tables and feeds use.
Timestamps are opaque (`Int`): the code's `astimezone` normalisation maps
an instant to the same instant, so `start`/`end` are carried through.
-/

namespace BenficaCal

/-- Whitespace, as in Python's `str.strip` and the regex class `\s`
(ASCII fragment: space, tab, newline, carriage return, vertical tab,
form feed). -/
def isSpace (c : Char) : Bool :=
  c == ' ' || c == '\t' || c == '\n' || c == '\r' || c.toNat == 11 || c.toNat == 12

/-- Python `str.lower`, character-wise, on ASCII and the Latin-1 letter
block (`À`..`Þ` except `×` map 32 codepoints up, exactly as in Python);
all other characters are unchanged. -/
def pyLowerChar (c : Char) : Char :=
  if 'A' ≤ c && c ≤ 'Z' then Char.ofNat (c.toNat + 32)
  else if 0xC0 ≤ c.toNat && c.toNat ≤ 0xDE && c.toNat != 0xD7 then Char.ofNat (c.toNat + 32)
  else c

/-- Python `str.lower` over a character list. -/
def lowerL (s : List Char) : List Char := s.map pyLowerChar

/-- Python `str.strip`: drop leading and trailing whitespace. -/
def pyStrip (s : List Char) : List Char :=
  ((s.dropWhile isSpace).reverse.dropWhile isSpace).reverse

/-- Python's `needle in hay` substring test. -/
def containsSub : List Char → List Char → Bool
  | [], needle => needle.isEmpty
  | hay@(_ :: t), needle => needle.isPrefixOf hay || containsSub t needle

/-- Python's `hay.startswith(needle)`. -/
def startsWithL (hay needle : List Char) : Bool := needle.isPrefixOf hay

/-- Python's `s.split(sep, 1)` for a non-empty separator: split at the
first occurrence, returning the parts before and after it. -/
def splitOnce (sep : List Char) : List Char → Option (List Char × List Char)
  | [] => if sep.isPrefixOf ([] : List Char) then some ([], []) else none
  | c :: t =>
    if sep.isPrefixOf (c :: t) then some ([], (c :: t).drop sep.length)
    else (splitOnce sep t).map fun p => (c :: p.1, p.2)

/-- Python's `s.split(sep)` for a one-character separator. -/
def splitAllList (sep : Char) : List Char → List (List Char)
  | [] => [[]]
  | c :: t =>
    let r := splitAllList sep t
    if c == sep then [] :: r
    else
      match r with
      | [] => [[c]]
      | l :: ls => (c :: l) :: ls

/-- Python's `re.sub(r"\s+", " ", s)`: collapse every whitespace run to a
single space. -/
def collapseWs : List Char → List Char
  | [] => []
  | [c] => if isSpace c then [' '] else [c]
  | c :: d :: t =>
    if isSpace c then
      if isSpace d then collapseWs (d :: t)
      else ' ' :: collapseWs (d :: t)
    else c :: collapseWs (d :: t)

/-- Word characters of the regex class `\w` (ASCII letters, digits,
underscore, and the Latin-1 letters `ª µ º À`..`ÿ` except `×` and `÷`). -/
def isWordChar (c : Char) : Bool :=
  ('a' ≤ c && c ≤ 'z') || ('A' ≤ c && c ≤ 'Z') || ('0' ≤ c && c ≤ '9') || c == '_'
  || c.toNat == 0xAA || c.toNat == 0xB5 || c.toNat == 0xBA
  || (0xC0 ≤ c.toNat && c.toNat ≤ 0xFF && c.toNat != 0xD7 && c.toNat != 0xF7)

/-- ASCII digit test, the regex class `\d`. -/
def isDigitChar (c : Char) : Bool := '0' ≤ c && c ≤ '9'

/-- Python's `int` on a non-empty string of ASCII digits. -/
def digitsToNat (s : List Char) : Nat :=
  s.foldl (fun n c => 10 * n + (c.toNat - 48)) 0

/-- Python's `str.splitlines` restricted to the terminators `\n`, `\r`
and `\r\n` (the ones appearing in calendar feed bodies): line list,
without a trailing empty line for a trailing terminator. -/
def pySplitlines : List Char → List (List Char)
  | [] => []
  | '\n' :: t => [] :: pySplitlines t
  | '\r' :: '\n' :: t => [] :: pySplitlines t
  | '\r' :: t => [] :: pySplitlines t
  | c :: t =>
    match pySplitlines t with
    | [] => [[c]]
    | l :: ls => (c :: l) :: ls

/-! ## Configuration (`src/Parsing/config.py`) -/

def BENFICA_NAME : String := "SL Benfica"

def SPORT_KEYWORDS : List String :=
  ["Hóquei em Patins", "Andebol", "Futsal", "Basquetebol", "Voleibol", "Futebol", "Hóquei"]

def FOOTBALL_SQUAD_KEYWORDS : List String :=
  ["Equipa B", "Juniores", "Sub-19", "Sub-23", "Sub-17", "Sub-15", "Juvenis", "Iniciados"]

def FOOTBALL_COMP_KEYWORDS : List String :=
  ["liga portugal", "taça de portugal", "liga dos campeões", "liga dos campeoes",
   "liga revelação", "liga revelacao", "liga dos campeões feminina",
   "liga dos campeoes feminina", "liga dos campeões feminina uefa",
   "supertaça", "supertaca",
   "campeonato nacional feminino ii divisão", "campeonato nacional feminino ii divisao"]

def BROADCAST_KEYWORDS : List String :=
  ["📺", "BTV", "DAZN", "Sport TV", "Eleven", "Canal 11", "RTP", "SIC", "TVI", "Benfica TV"]

/-! ## Ticketing classifier (`is_ticketing_event`, parsing.py lines 21-53) -/

/-- Translation of `is_ticketing_event(summary, description, competition)`:
strip and lower-case the three inputs (absent treated as empty), then
test, in order: the "critérios de venda" signal in body or competition,
the "bilhetes"-prefixed title, and the fallback "bilhetes without a
pipe-with-spaces separator" title. -/
def is_ticketing_event (summary description competition : Option String) : Bool :=
  let s := lowerL (pyStrip (summary.getD "").data)
  let d := lowerL (pyStrip (description.getD "").data)
  let c := lowerL (pyStrip (competition.getD "").data)
  if containsSub d "critérios de venda".data || startsWithL c "critérios de venda".data then
    true
  else if startsWithL s "🎫 bilhetes".data || startsWithL s "bilhetes ".data then
    true
  else if containsSub s "bilhetes".data && !containsSub s " | ".data then
    true
  else
    false

/-! ## Home-club test (`is_benfica_team`, parsing.py lines 56-59) -/

/-- Translation of `is_benfica_team(name)`: false for the empty name,
otherwise a starts-with test against `BENFICA_NAME`. -/
def is_benfica_team (name : String) : Bool :=
  if name.data.isEmpty then false
  else startsWithL name.data BENFICA_NAME.data

/-! ## Body header parser (`parse_competition_line`, parsing.py lines 62-118)

The two regular expressions of the source are compiled by hand, with
their exact backtracking semantics spelled out:

* `re.search(r"Jornada\s+(\d+)", s)` finds the leftmost position where
  the literal `Jornada` is followed by at least one whitespace character
  and then at least one digit, and captures the maximal digit run (the
  quantifiers are greedy and `\s`, `\d` are disjoint, so no other
  backtracking is possible).
* `re.match(r"(?P<comp>.+?)\s+(?P<season>\d{2}/\d{2}|\d{4}/\d{2})(?:\s*-\s*Jornada\s+(?P<j>\d+))?$", s)`
  tries the lazy `comp` group at increasing lengths (its characters may
  not include a newline); after it, the greedy `\s+` is forced to the
  maximal whitespace run, the season alternation tries `\d{2}/\d{2}`
  before `\d{4}/\d{2}` with the rest of the pattern as continuation, and
  the optional `Jornada` group is greedy with every inner step forced.
  The strings reaching this regex were stripped, so `$` means "end". -/

/-- Attempt `Jornada\s+(\d+)` at the head of the list, returning the
captured digit run. -/
def jornadaAt (s : List Char) : Option (List Char) :=
  if "Jornada".data.isPrefixOf s then
    let rest := s.drop 7
    if (rest.takeWhile isSpace).isEmpty then none
    else
      let rest2 := rest.dropWhile isSpace
      let ds := rest2.takeWhile isDigitChar
      if ds.isEmpty then none else some ds
  else none

/-- `re.search(r"Jornada\s+(\d+)", s)`, returning the captured matchday. -/
def searchJornada : List Char → Option Nat
  | [] =>
    match jornadaAt [] with
    | some ds => some (digitsToNat ds)
    | none => none
  | c :: t =>
    match jornadaAt (c :: t) with
    | some ds => some (digitsToNat ds)
    | none => searchJornada t

/-- Full-string match of `^\d{2}/\d{2}$` or `^\d{4}/\d{2}$`. -/
def isSeasonShape (s : List Char) : Bool :=
  match s with
  | [a, b, sl, c, d] =>
    isDigitChar a && isDigitChar b && sl == '/' && isDigitChar c && isDigitChar d
  | [a, b, c, d, sl, e, f] =>
    isDigitChar a && isDigitChar b && isDigitChar c && isDigitChar d
      && sl == '/' && isDigitChar e && isDigitChar f
  | _ => false

/-- Attempt the optional group `\s*-\s*Jornada\s+(\d+)` against the whole
remainder (the `$` anchor must follow it). Every step is forced, as the
runs are maximal. -/
def tryOptJornada (rem : List Char) : Option Nat :=
  match rem.dropWhile isSpace with
  | '-' :: r2 =>
    let r3 := r2.dropWhile isSpace
    if "Jornada".data.isPrefixOf r3 then
      let r4 := r3.drop 7
      if (r4.takeWhile isSpace).isEmpty then none
      else
        let r5 := r4.dropWhile isSpace
        let ds := r5.takeWhile isDigitChar
        if ds.isEmpty then none
        else if (r5.drop ds.length).isEmpty then some (digitsToNat ds) else none
    else none
  | _ => none

/-- One alternation branch of the season group: `\d{a}/\d{b}` at the head
of `after`, then the optional `Jornada` group, then the end anchor. -/
def seasonBranch (a b : Nat) (after : List Char) : Option (List Char × Option Nat) :=
  let d1 := after.take a
  if d1.length == a && d1.all isDigitChar && (after.drop a).take 1 == ['/'] then
    let d2 := (after.drop (a + 1)).take b
    if d2.length == b && d2.all isDigitChar then
      let rem := after.drop (a + 1 + b)
      match tryOptJornada rem with
      | some j => some (d1 ++ '/' :: d2, some j)
      | none => if rem.isEmpty then some (d1 ++ '/' :: d2, none) else none
    else none
  else none

/-- The part of the big regex after the lazy `comp` group: the forced
`\s+`, then the season alternation (`\d{2}/\d{2}` tried before
`\d{4}/\d{2}`, each with the full continuation). -/
def tryTailAt (rest : List Char) : Option (List Char × Option Nat) :=
  if (rest.takeWhile isSpace).isEmpty then none
  else
    let after := rest.dropWhile isSpace
    match seasonBranch 2 2 after with
    | some r => some r
    | none => seasonBranch 4 2 after

/-- The lazy `comp` group: try each non-empty newline-free prefix, from
the shortest, with `tryTailAt` on the remainder; `accRev` holds the
reversed prefix taken so far. -/
def compLoop (accRev : List Char) : List Char → Option (List Char × List Char × Option Nat)
  | [] => none
  | c :: rest =>
    if c == '\n' then none
    else
      match tryTailAt rest with
      | some (season, j) => some ((c :: accRev).reverse, season, j)
      | none => compLoop (c :: accRev) rest

/-- `re.match` of the full competition-season-Jornada pattern. -/
def matchCompSeason (s : List Char) : Option (List Char × List Char × Option Nat) :=
  compLoop [] s

/-- Translation of `parse_competition_line(first_line)`: the pipe-form
grammar when the stripped line contains `|`, the space-form regex (with
plain-label fallback) otherwise. -/
def parse_competition_line (first_line : String) :
    Option String × Option String × Option Nat :=
  let fl := pyStrip first_line.data
  if fl.isEmpty then (none, none, none)
  else
    match splitOnce ['|'] fl with
    | some (compName, rest0) =>
      let competition := pyStrip compName
      let rest := pyStrip rest0
      (match splitOnce ['-'] rest with
       | some (seasonPart, rest2) =>
         (some (String.mk competition), some (String.mk (pyStrip seasonPart)),
          searchJornada (pyStrip rest2))
       | none =>
         (some (String.mk competition),
          if isSeasonShape rest then some (String.mk rest) else none, none))
    | none =>
      match matchCompSeason fl with
      | some (comp, season, j) =>
        (some (String.mk (pyStrip comp)), some (String.mk (pyStrip season)), j)
      | none => (some (String.mk fl), none, none)

/-! ## Ticket URL extraction (`extract_ticket_url`, parsing.py lines 121-127) -/

/-- The loop body of `extract_ticket_url`: first line whose stripped form
starts with `http`, returned stripped. -/
def firstHttpLine : List (List Char) → Option String
  | [] => none
  | l :: ls =>
    let t := pyStrip l
    if startsWithL t "http".data then some (String.mk t) else firstHttpLine ls

/-- Translation of `extract_ticket_url(description)`. -/
def extract_ticket_url (description : String) : Option String :=
  firstHttpLine (pySplitlines description.data)

/-! ## Title parser (`parse_summary`, parsing.py lines 130-253) -/

/-- Result record of `parse_summary`. -/
structure SummaryInfo where
  event_type : String
  team_a : Option String
  team_b : Option String
  benfica_home : Option Bool
  opponent : Option String
  sport : Option String
  squad_label : Option String
  broadcast : Option String
deriving Repr, DecidableEq

/-- The all-absent `"other"` record returned by `parse_summary`'s two
early exits. -/
def otherSummary : SummaryInfo :=
  { event_type := "other", team_a := none, team_b := none, benfica_home := none,
    opponent := none, sport := none, squad_label := none, broadcast := none }

/-- Scan of the segments containing `" x "`: the first such segment is the
pairing segment, and the segments after it are the metadata segments. -/
def findPairingSplit : List (List Char) → Option (List Char × List (List Char))
  | [] => none
  | seg :: rest =>
    if containsSub seg " x ".data then some (seg, rest) else findPairingSplit rest

/-- Home/away resolution (parsing.py lines 191-202): test both parsed
names with `is_benfica_team`; exactly-one-match fixes `benfica_home` and
the opponent, otherwise `benfica_home` stays absent and the opponent is
`team_b or team_a`. -/
def resolveFixture (a b : String) : Option Bool × Option String :=
  let ab := is_benfica_team a
  let bb := is_benfica_team b
  if ab && !bb then (some true, some b)
  else if bb && !ab then (some false, some a)
  else (none, some (if b.data.isEmpty then a else b))

/-- Team extraction from the cleaned pairing segment (parsing.py lines
184-202): split once on `" x "`, strip and collapse whitespace in both
names, then resolve home/away.  The tuple is
`(team_a, team_b, benfica_home, opponent)`;  all four stay absent when
the cleaned segment no longer contains `" x "`. -/
def teamFields (match_clean : List Char) :
    Option String × Option String × Option Bool × Option String :=
  match splitOnce " x ".data match_clean with
  | none => (none, none, none, none)
  | some (l, r) =>
    let a := String.mk (collapseWs (pyStrip l))
    let b := String.mk (collapseWs (pyStrip r))
    (some a, some b, (resolveFixture a b).1, (resolveFixture a b).2)

/-- Metadata scan (parsing.py lines 210-218): broadcast-keyword segments
are stashed (last one wins) and skipped; the first other segment becomes
the modality segment.  Returns `(modality, broadcast)`. -/
def scanMetadata : List (List Char) → Option (List Char) → Option (List Char) →
    Option (List Char) × Option (List Char)
  | [], modality, broadcast => (modality, broadcast)
  | seg :: rest, modality, broadcast =>
    if BROADCAST_KEYWORDS.any (fun b => containsSub seg b.data) then
      scanMetadata rest modality (some seg)
    else
      scanMetadata rest (if modality.isNone then some seg else modality) broadcast

/-- Sport-keyword loop (parsing.py lines 226-233): first contained sport
keyword wins; the squad label is the stripped remainder after the
keyword's first occurrence, absent if empty. -/
def findSport : List String → List Char → Option (String × Option String)
  | [], _ => none
  | sk :: rest, seg =>
    match splitOnce sk.data seg with
    | some (_, after) =>
      let a := pyStrip after
      some (sk, if a.isEmpty then none else some (String.mk a))
    | none => findSport rest seg

/-- Sport/squad resolution from the modality segment (parsing.py lines
220-242): sport keywords first, then the football-squad-keyword fallback
which sets `sport = "Futebol"` and keeps the whole segment as label. -/
def sportFields (modality : Option (List Char)) : Option String × Option String :=
  match modality with
  | none => (none, none)
  | some seg =>
    match findSport SPORT_KEYWORDS seg with
    | some (sk, lbl) => (some sk, lbl)
    | none =>
      if FOOTBALL_SQUAD_KEYWORDS.any (fun fk => containsSub seg fk.data) then
        (some "Futebol", some (String.mk seg))
      else (none, none)

/-- The `"match"` result of `parse_summary` (parsing.py lines 175-253),
from the pairing segment and the metadata segments after it: clean the
pairing segment of leading non-word characters, extract the teams, scan
the metadata, resolve sport and squad label. -/
def mainSummary (match_seg : List Char) (metadata_segments : List (List Char)) : SummaryInfo :=
  { event_type := "match",
    team_a := (teamFields (pyStrip (match_seg.dropWhile fun c => !isWordChar c))).1,
    team_b := (teamFields (pyStrip (match_seg.dropWhile fun c => !isWordChar c))).2.1,
    benfica_home := (teamFields (pyStrip (match_seg.dropWhile fun c => !isWordChar c))).2.2.1,
    opponent := (teamFields (pyStrip (match_seg.dropWhile fun c => !isWordChar c))).2.2.2,
    sport := (sportFields (scanMetadata metadata_segments none none).1).1,
    squad_label := (sportFields (scanMetadata metadata_segments none none).1).2,
    broadcast := (scanMetadata metadata_segments none none).2.map String.mk }

/-- The segment scan of `parse_summary` (parsing.py lines 155-173): no
pairing segment means the `"other"` record, otherwise the `"match"`
analysis runs. -/
def summaryCore (segments : List (List Char)) : SummaryInfo :=
  match findPairingSplit segments with
  | none => otherSummary
  | some (match_seg, metadata_segments) => mainSummary match_seg metadata_segments

/-- Translation of `parse_summary(summary)`. -/
def parse_summary (summary : String) : SummaryInfo :=
  let su := pyStrip summary.data
  if su.isEmpty then otherSummary
  else summaryCore (((splitAllList '|' su).map pyStrip).filter fun l => !l.isEmpty)

/-! ## Event records and `parse_event` (parsing.py lines 261-381, models.py) -/

/-- The raw fields `parse_event` reads off one calendar component:
`uid`, the source name, start/end instants (opaque, since the code's
`astimezone` normalisation maps an instant to the same instant),
summary, description and location strings (the code coerces missing
summary/description/location to `""` before any parsing, so plain
strings are the faithful type here). -/
structure RawEntry where
  uid : String
  source_name : String
  start : Int
  endTime : Option Int
  summary : String
  description : String
  location : String
deriving Repr, DecidableEq

/-- The `Event` dataclass of models.py (field `end` is called `endTime`
here, `end` being reserved in Lean). -/
structure Event where
  uid : String
  source_name : String
  event_type : String
  start : Int
  endTime : Option Int
  summary : String
  description : String
  venue_name : String
  sport : Option String
  squad_label : Option String
  benfica_home : Option Bool
  opponent : Option String
  competition : Option String
  season : Option String
  matchday : Option Nat
  ticket_url : Option String
  broadcast : Option String
deriving Repr, DecidableEq

/-- The `looks_like_football` test of the fallback block (parsing.py
lines 324-332): a football emoji in the summary, or a configured
football-competition keyword in the lower-cased competition. -/
def looksLikeFootball (summary : String) (competition : Option String) : Bool :=
  containsSub summary.data "⚽".data || containsSub summary.data "⚽️".data
    || FOOTBALL_COMP_KEYWORDS.any fun k =>
         containsSub (lowerL (competition.getD "").data) k.data

/-- The feminine-keyword test of the fallback block (parsing.py lines
339-344): `feminina` or `feminino` in the lower-cased competition or
summary. -/
def feminineSignal (summary : String) (competition : Option String) : Bool :=
  containsSub (lowerL (competition.getD "").data) "feminina".data
    || containsSub (lowerL (competition.getD "").data) "feminino".data
    || containsSub (lowerL summary.data) "feminina".data
    || containsSub (lowerL summary.data) "feminino".data

/-- The youth/reserve-squad keyword list inlined at parsing.py lines
346-356. -/
def YOUTH_SQUAD_TOKENS : List String :=
  ["Sub-23", "Sub 23", "Sub-19", "Sub 19", "Juniores", "Equipa B"]

/-- The youth-keyword test of the fallback block: any of the inline
tokens contained in the (case-sensitive) summary. -/
def youthSignal (summary : String) : Bool :=
  YOUTH_SQUAD_TOKENS.any fun k => containsSub summary.data k.data

/-- The football fallback heuristic (parsing.py lines 319-361), as a
function of the summary, the competition and the current sport and
squad label: when the entry looks like football, sport becomes
`"Futebol"` and an absent squad label is guessed (`"Feminino"` on a
feminine keyword, left absent on a youth keyword, `"Masculino"`
otherwise); when it does not, both fields are returned unchanged. -/
def football_fallback (summary : String) (competition : Option String)
    (sport squad_label : Option String) : Option String × Option String :=
  if looksLikeFootball summary competition then
    (some "Futebol",
      match squad_label with
      | some x => some x
      | none =>
        if feminineSignal summary competition then some "Feminino"
        else if youthSignal summary then none
        else some "Masculino")
  else (sport, squad_label)

/-- The body-header step of `parse_event` (parsing.py lines 275-279):
`(competition, season, matchday)` parsed from the stripped first body
line, all absent when there is no non-empty first line. -/
def entry_header (e : RawEntry) : Option String × Option String × Option Nat :=
  let first_line :=
    match pySplitlines e.description.data with
    | [] => ([] : List Char)
    | l :: _ => pyStrip l
  if first_line.isEmpty then (none, none, none)
  else parse_competition_line (String.mk first_line)

/-- Translation of `parse_event(component, source_name)` (parsing.py
lines 261-381): header parsing, the ticketing short-circuit, summary
parsing, conditional ticket-URL extraction and the football fallback. -/
def parse_event (e : RawEntry) : Event :=
  let hdr := entry_header e
  let competition := hdr.1
  let season := hdr.2.1
  let matchday := hdr.2.2
  if is_ticketing_event (some e.summary) (some e.description) competition then
    { uid := e.uid, source_name := e.source_name, event_type := "ticketing",
      start := e.start, endTime := e.endTime, summary := e.summary,
      description := e.description, venue_name := e.location,
      sport := none, squad_label := none, benfica_home := none, opponent := none,
      competition := competition, season := season, matchday := matchday,
      ticket_url := extract_ticket_url e.description, broadcast := none }
  else
    let si := parse_summary e.summary
    let ticket_url :=
      if containsSub (lowerL e.description.data) "bilhete".data then
        extract_ticket_url e.description
      else none
    let sp :=
      if si.event_type == "match" && si.sport.isNone then
        football_fallback e.summary competition si.sport si.squad_label
      else (si.sport, si.squad_label)
    { uid := e.uid, source_name := e.source_name, event_type := si.event_type,
      start := e.start, endTime := e.endTime, summary := e.summary,
      description := e.description, venue_name := e.location,
      sport := sp.1, squad_label := sp.2,
      benfica_home := si.benfica_home, opponent := si.opponent,
      competition := competition, season := season, matchday := matchday,
      ticket_url := ticket_url, broadcast := si.broadcast }

/-! ## Helper lemmas -/

/-- Python's `sep in s` test agrees with the success of `s.split(sep, 1)`. -/
theorem containsSub_eq_isSome (sep : List Char) :
    ∀ s : List Char, containsSub s sep = (splitOnce sep s).isSome := by
  intro s
  induction s with
  | nil => cases sep <;> simp [containsSub, splitOnce, List.isPrefixOf]
  | cons c t ih =>
    show (sep.isPrefixOf (c :: t) || containsSub t sep) = _
    rw [splitOnce]
    cases h : sep.isPrefixOf (c :: t) with
    | false => simp [h, ih]
    | true => simp [h]

/-- A three-way boolean guard chain returning `true` in every fired branch
is the disjunction of its guards. -/
theorem if_chain3 (a b c : Bool) :
    (if a then true else if b then true else if c then true else false) = (a || b || c) := by
  cases a <;> cases b <;> cases c <;> rfl

/-- The empty-name guard of `is_benfica_team` is subsumed by the
starts-with test, since `BENFICA_NAME` is non-empty. -/
theorem is_benfica_team_eq (s : String) :
    is_benfica_team s = startsWithL s.data BENFICA_NAME.data := by
  unfold is_benfica_team
  cases h : s.data with
  | nil => rfl
  | cons c t => rfl

/-- Every `parse_summary` result is either the all-absent `"other"` record
or the `"match"` record of some pairing segment `ms` and metadata
segments `md`. -/
theorem parse_summary_shape (s : String) :
    parse_summary s = otherSummary ∨
    ∃ (ms : List Char) (md : List (List Char)), parse_summary s = mainSummary ms md := by
  unfold parse_summary
  by_cases h1 : (pyStrip s.data).isEmpty = true
  · simp only [h1, if_true]
    exact Or.inl trivial
  · simp only [h1, if_false]
    unfold summaryCore
    cases h2 : findPairingSplit
        (((splitAllList '|' (pyStrip s.data)).map pyStrip).filter fun l => !l.isEmpty) with
    | none => exact Or.inl rfl
    | some p => exact Or.inr ⟨p.1, p.2, rfl⟩

/-- The `"match"` branch record really is typed `"match"`. -/
theorem mainSummary_event_type (ms : List Char) (md : List (List Char)) :
    (mainSummary ms md).event_type = "match" := rfl

/-- `parse_summary` never classifies an entry as `"ticketing"`. -/
theorem parse_summary_ne_ticketing (s : String) :
    (parse_summary s).event_type ≠ "ticketing" := by
  rcases parse_summary_shape s with h | ⟨ms, md, h⟩ <;> rw [h]
  · decide
  · rw [mainSummary_event_type]
    decide

/-- A `parse_summary` result typed `"other"` is the all-absent record. -/
theorem parse_summary_other (s : String) (h : (parse_summary s).event_type = "other") :
    parse_summary s = otherSummary := by
  rcases parse_summary_shape s with hs | ⟨ms, md, hs⟩
  · exact hs
  · rw [hs, mainSummary_event_type] at h
    exact absurd h (by decide)

/-- When the pairing split produced team names, `benfica_home` and
`opponent` are exactly the `resolveFixture` of those names. -/
theorem teamFields_resolve (mc : List Char) (a b : String)
    (ha : (teamFields mc).1 = some a) (hb : (teamFields mc).2.1 = some b) :
    (teamFields mc).2.2.1 = (resolveFixture a b).1 ∧
    (teamFields mc).2.2.2 = (resolveFixture a b).2 := by
  unfold teamFields at ha hb ⊢
  cases hsp : splitOnce " x ".data mc with
  | none =>
    rw [hsp] at ha
    exact absurd ha (by simp)
  | some p =>
    obtain ⟨l, r⟩ := p
    rw [hsp] at ha hb
    have ha' : a = String.mk (collapseWs (pyStrip l)) := (Option.some.inj ha).symm
    have hb' : b = String.mk (collapseWs (pyStrip r)) := (Option.some.inj hb).symm
    subst ha'
    subst hb'
    exact ⟨rfl, rfl⟩

/-! ## Claim-side formalisations

These definitions transcribe the claims' own words, to be compared with
the definitions translated from the source. -/

/-- Rule 1 of claim C1 exactly as written: the lower-cased body contains
the phrase, or the lower-cased (untrimmed) competition starts with it. -/
def claimRule1 (body competition : Option String) : Bool :=
  containsSub (lowerL (body.getD "").data) "critérios de venda".data
    || startsWithL (lowerL (competition.getD "").data) "critérios de venda".data

/-- Rule 2 of claim C1: the lower-cased trimmed title starts with
`"🎫 bilhetes"` or with `"bilhetes "`. -/
def claimRule2 (title : Option String) : Bool :=
  startsWithL (lowerL (pyStrip (title.getD "").data)) "🎫 bilhetes".data
    || startsWithL (lowerL (pyStrip (title.getD "").data)) "bilhetes ".data

/-- Rule 3 of claim C1 exactly as written: the lower-cased (untrimmed)
title contains `"bilhetes"` and does not contain `" | "`. -/
def claimRule3 (title : Option String) : Bool :=
  containsSub (lowerL (title.getD "").data) "bilhetes".data
    && !containsSub (lowerL (title.getD "").data) " | ".data

/-- The classifier described by claim C1, as written. -/
def claimTicketing (title body competition : Option String) : Bool :=
  claimRule1 body competition || claimRule2 title || claimRule3 title

/-- Rule 1 amended: body and competition are trimmed before the tests,
as the code does. -/
def amendedRule1 (body competition : Option String) : Bool :=
  containsSub (lowerL (pyStrip (body.getD "").data)) "critérios de venda".data
    || startsWithL (lowerL (pyStrip (competition.getD "").data)) "critérios de venda".data

/-- Rule 3 amended: the title is trimmed before the tests, as the code
does. -/
def amendedRule3 (title : Option String) : Bool :=
  containsSub (lowerL (pyStrip (title.getD "").data)) "bilhetes".data
    && !containsSub (lowerL (pyStrip (title.getD "").data)) " | ".data

/-- The classifier described by claim C1 with the amendment: all three
inputs are trimmed before lower-casing and testing. -/
def amendedTicketing (title body competition : Option String) : Bool :=
  amendedRule1 body competition || claimRule2 title || amendedRule3 title

/-- Claim C4's description of the pipe-form grammar over the stripped
first line: split on the first `|`, trimmed left part is the
competition; a `-` in the right part yields a season and a `Jornada`
matchday search, otherwise the season requires the `DD/DD` or `DDDD/DD`
shape. -/
def pipeFormSpec (fl : List Char) : Option String × Option String × Option Nat :=
  match splitOnce ['|'] fl with
  | none => (none, none, none)
  | some (l, r) =>
    let competition := pyStrip l
    let rest := pyStrip r
    match splitOnce ['-'] rest with
    | some (seasonPart, rest2) =>
      (some (String.mk competition), some (String.mk (pyStrip seasonPart)),
       searchJornada (pyStrip rest2))
    | none =>
      (some (String.mk competition),
       if isSeasonShape rest then some (String.mk rest) else none, none)

/-- Claim C5's description of the space-form grammar over the stripped
first line: attempt the end-anchored
`<competition> <season shape> [- Jornada <digits>]` pattern; on failure
the whole line is the competition. -/
def spaceFormSpec (fl : List Char) : Option String × Option String × Option Nat :=
  match matchCompSeason fl with
  | some (comp, season, j) =>
    (some (String.mk (pyStrip comp)), some (String.mk (pyStrip season)), j)
  | none => (some (String.mk fl), none, none)

/-! ## Concrete entries used by witnesses and counterexamples -/

/-- A non-match, non-ticketing entry (museum visit). -/
def museumEntry : RawEntry :=
  { uid := "m1", source_name := "ecal", start := 0, endTime := none,
    summary := "Visita ao Museu Benfica", description := "", location := "" }

/-- A ticketing entry whose body has its URL in the middle of a line. -/
def ticketMidUrlEntry : RawEntry :=
  { uid := "t1", source_name := "ecal", start := 0, endTime := none,
    summary := "Bilhetes info", description := "Compre aqui: https://x/y", location := "" }

/-- A non-ticketing `"other"` entry with the same mid-line-URL body. -/
def otherMidUrlEntry : RawEntry :=
  { uid := "t2", source_name := "ecal", start := 0, endTime := none,
    summary := "Visita ao Museu Benfica", description := "Compre aqui: https://x/y",
    location := "" }

/-- A ticketing entry whose body has the URL on its own line. -/
def ticketOwnLineEntry : RawEntry :=
  { uid := "t3", source_name := "ecal", start := 0, endTime := none,
    summary := "Bilhetes info", description := "Compre aqui:\nhttps://x/y", location := "" }

/-- A match entry with no title sport signal beyond the football emoji. -/
def fallbackEntry : RawEntry :=
  { uid := "f1", source_name := "ecal", start := 0, endTime := none,
    summary := "⚽ Benfica x Porto", description := "", location := "" }

/-! ## Claim C1 (corrected) -/

/-- Claim C1 as frozen is false: the code strips the title before the
`"bilhetes"`-with-no-`" | "` fallback test, so for the title
`"xbilhetes | "` (whose untrimmed lower-cased form still contains
`" | "`) the classifier returns true while the claim's rules say
false. -/
theorem C1_counterexample :
    is_ticketing_event (some "xbilhetes | ") (some "") none = true ∧
    claimTicketing (some "xbilhetes | ") (some "") none = false := by
  constructor <;> decide

/-- Claim C1 amended: with body, competition and title trimmed before
lower-casing and testing (as the code does), the classifier returns true
exactly when one of the three ordered rules fires — which, for a boolean
verdict, is their disjunction — and the ticket-precedence example
returns true. -/
theorem C1_ticketing_classifier :
    (∀ title body competition : Option String,
      is_ticketing_event title body competition =
        amendedTicketing title body competition) ∧
    is_ticketing_event (some "🎫 Bilhetes ⚽ SL Benfica x Sporting") (some "") none = true := by
  constructor
  · intro t b c
    simp only [is_ticketing_event, amendedTicketing, amendedRule1, claimRule2, amendedRule3]
    exact if_chain3 _ _ _
  · decide

/-! ## Claim C10 (confirmed) -/

/-- Claim C10: the title `"⚽ x Benfica"` is not ticketing and its pairing
segment contains `" x "`, so the title parser classifies it as a match;
but after stripping leading non-word characters the separator is gone,
so teams, home flag and opponent are all absent. -/
theorem C10_match_without_teams :
    is_ticketing_event (some "⚽ x Benfica") (some "") none = false ∧
    parse_summary "⚽ x Benfica" =
      { event_type := "match", team_a := none, team_b := none, benfica_home := none,
        opponent := none, sport := none, squad_label := none, broadcast := none } := by
  constructor <;> decide

/-! ## Claim C7 (corrected) -/

/-- Claim C7 as frozen is false in one field: on the fixture title, the
football-squad-keyword branch of the title parser sets
`sport = "Futebol"` — it is not absent from the title step. -/
theorem C7_counterexample :
    (parse_summary "⚽ SL Benfica x Paços Ferreira | Equipa B | 📺 BTV").sport =
      some "Futebol" := by
  decide

/-- Claim C7 amended: the fixture title parses to the claimed teams, home
flag, opponent, squad label and broadcast, with `sport = "Futebol"` (not
absent) set by the football-squad-keyword branch. -/
theorem C7_fixture_extraction :
    parse_summary "⚽ SL Benfica x Paços Ferreira | Equipa B | 📺 BTV" =
      { event_type := "match", team_a := some "SL Benfica",
        team_b := some "Paços Ferreira", benfica_home := some true,
        opponent := some "Paços Ferreira", sport := some "Futebol",
        squad_label := some "Equipa B", broadcast := some "📺 BTV" } := by
  decide

/-! ## Claim C4 (confirmed) -/

/-- Claim C4: on a body first line whose stripped form is non-empty and
contains `|`, the body parser follows the pipe-form grammar as the claim
describes it, and the example header parses to the claimed triple. -/
theorem C4_pipe_form :
    (∀ s : String, pyStrip s.data ≠ [] → containsSub (pyStrip s.data) ['|'] = true →
      parse_competition_line s = pipeFormSpec (pyStrip s.data)) ∧
    parse_competition_line "Campeonato Nacional Masculino | 25/26 - Jornada 4" =
      (some "Campeonato Nacional Masculino", some "25/26", some 4) := by
  constructor
  · intro s h1 h2
    have hne : (pyStrip s.data).isEmpty = false := by
      cases h : pyStrip s.data with
      | nil => exact absurd h h1
      | cons c t => rfl
    unfold parse_competition_line pipeFormSpec
    simp only [hne, Bool.false_eq_true, if_false]
    rw [containsSub_eq_isSome] at h2
    cases hsp : splitOnce ['|'] (pyStrip s.data) with
    | none => rw [hsp] at h2; exact absurd h2 (by simp)
    | some p =>
      obtain ⟨l, r⟩ := p
      rfl
  · decide

/-- Witness for C4 at another concrete pipe-form header. -/
theorem C4_pipe_form_witness :
    parse_competition_line "Liga Portugal | 25/26" =
      pipeFormSpec (pyStrip "Liga Portugal | 25/26".data) :=
  C4_pipe_form.1 "Liga Portugal | 25/26" (by decide) (by decide)

/-! ## Claim C5 (confirmed) -/

/-- Claim C5: on a body first line whose stripped form is non-empty and
contains no `|`, the body parser attempts the end-anchored
competition-season-Jornada pattern and falls back to the whole line as
competition, as the claim describes; the example header parses to the
claimed triple with the matchday absent. -/
theorem C5_space_form :
    (∀ s : String, pyStrip s.data ≠ [] → containsSub (pyStrip s.data) ['|'] = false →
      parse_competition_line s = spaceFormSpec (pyStrip s.data)) ∧
    parse_competition_line "CEV Challenge Cup 25/26" =
      (some "CEV Challenge Cup", some "25/26", none) := by
  constructor
  · intro s h1 h2
    have hne : (pyStrip s.data).isEmpty = false := by
      cases h : pyStrip s.data with
      | nil => exact absurd h h1
      | cons c t => rfl
    unfold parse_competition_line spaceFormSpec
    simp only [hne, Bool.false_eq_true, if_false]
    rw [containsSub_eq_isSome] at h2
    cases hsp : splitOnce ['|'] (pyStrip s.data) with
    | none =>
      cases hm : matchCompSeason (pyStrip s.data) with
      | none => rfl
      | some q => obtain ⟨comp, season, j⟩ := q; rfl
    | some p => rw [hsp] at h2; exact absurd h2 (by simp)
  · decide

/-- Witness for C5 at a space-form header carrying a matchday. -/
theorem C5_space_form_witness :
    parse_competition_line "Segunda Liga 25/26 - Jornada 9" =
      spaceFormSpec (pyStrip "Segunda Liga 25/26 - Jornada 9".data) :=
  C5_space_form.1 "Segunda Liga 25/26 - Jornada 9" (by decide) (by decide)

/-! ## Claim C2 (confirmed) -/

/-- Claim C2: an event record typed `"ticketing"` or `"other"` carries no
sport, squad label, home flag, opponent or broadcast. -/
theorem C2_mutual_exclusivity :
    ∀ e : RawEntry,
      (parse_event e).event_type = "ticketing" ∨ (parse_event e).event_type = "other" →
      (parse_event e).sport = none ∧ (parse_event e).squad_label = none ∧
      (parse_event e).benfica_home = none ∧ (parse_event e).opponent = none ∧
      (parse_event e).broadcast = none := by
  intro e
  simp only [parse_event]
  split
  · intro _
    exact ⟨rfl, rfl, rfl, rfl, rfl⟩
  · intro h
    rcases h with h | h
    · exact absurd h (parse_summary_ne_ticketing e.summary)
    · have hsi := parse_summary_other e.summary h
      rw [hsi]
      exact ⟨rfl, rfl, rfl, rfl, rfl⟩

/-- Witness for C2: the museum entry is typed `"other"` and all five
match-only fields are absent. -/
theorem C2_mutual_exclusivity_witness :
    (parse_event museumEntry).event_type = "other" ∧
    ((parse_event museumEntry).sport = none ∧ (parse_event museumEntry).squad_label = none ∧
     (parse_event museumEntry).benfica_home = none ∧ (parse_event museumEntry).opponent = none ∧
     (parse_event museumEntry).broadcast = none) :=
  ⟨by decide, C2_mutual_exclusivity museumEntry (Or.inr (by decide))⟩

/-! ## Claim C3 (confirmed) -/

/-- Claim C3: whenever the pairing segment split into two team names,
home/away is resolved by the starts-with test of both names against
`"SL Benfica"`: exactly one hit fixes `benfica_home` and the opponent,
both-or-neither leaves `benfica_home` absent with the opponent
defaulting to `team_b` (or `team_a` when `team_b` is empty); hence a
present `benfica_home` means exactly one side passed the test. -/
theorem C3_home_away :
    ∀ (s a b : String),
      (parse_summary s).team_a = some a → (parse_summary s).team_b = some b →
      ((startsWithL a.data BENFICA_NAME.data = true ∧ startsWithL b.data BENFICA_NAME.data = false →
          (parse_summary s).benfica_home = some true ∧ (parse_summary s).opponent = some b) ∧
       (startsWithL b.data BENFICA_NAME.data = true ∧ startsWithL a.data BENFICA_NAME.data = false →
          (parse_summary s).benfica_home = some false ∧ (parse_summary s).opponent = some a) ∧
       (startsWithL a.data BENFICA_NAME.data = startsWithL b.data BENFICA_NAME.data →
          (parse_summary s).benfica_home = none ∧
          (parse_summary s).opponent = some (if b.data.isEmpty then a else b)) ∧
       ((parse_summary s).benfica_home ≠ none →
          (startsWithL a.data BENFICA_NAME.data = true ↔
           startsWithL b.data BENFICA_NAME.data = false))) := by
  intro s a b ha hb
  rcases parse_summary_shape s with hs | ⟨ms, md, hs⟩
  · rw [hs] at ha
    exact absurd ha (by simp [otherSummary])
  · rw [hs] at ha hb ⊢
    unfold mainSummary at ha hb ⊢
    have hr := teamFields_resolve (pyStrip (ms.dropWhile fun c => !isWordChar c)) a b ha hb
    rw [hr.1, hr.2]
    unfold resolveFixture
    rw [is_benfica_team_eq, is_benfica_team_eq]
    cases hx : startsWithL a.data BENFICA_NAME.data <;>
      cases hy : startsWithL b.data BENFICA_NAME.data <;>
        simp

/-- Witness for C3 on a fixture where only the left side passes the
home-club test. -/
theorem C3_home_away_witness :
    (parse_summary "SL Benfica x Porto").benfica_home = some true ∧
    (parse_summary "SL Benfica x Porto").opponent = some "Porto" :=
  (C3_home_away "SL Benfica x Porto" "SL Benfica" "Porto" (by decide) (by decide)).1
    ⟨by decide, by decide⟩

/-! ## Claim C9 (confirmed) -/

/-- Claim C9: `uid`, source name, start, end, title, body and venue are
carried through unchanged from the raw entry, for every event type. -/
theorem C9_passthrough :
    ∀ e : RawEntry,
      (parse_event e).uid = e.uid ∧ (parse_event e).source_name = e.source_name ∧
      (parse_event e).start = e.start ∧ (parse_event e).endTime = e.endTime ∧
      (parse_event e).summary = e.summary ∧ (parse_event e).description = e.description ∧
      (parse_event e).venue_name = e.location := by
  intro e
  simp only [parse_event]
  split <;> exact ⟨rfl, rfl, rfl, rfl, rfl, rfl, rfl⟩

/-! ## Claim C6 (corrected) -/

/-- Claim C6 as frozen is false in its second example: URL extraction
only returns body lines that themselves start with `http`, so the body
line `"Compre aqui: https://x/y"` yields no ticket URL even for a
ticketing event. -/
theorem C6_counterexample :
    (parse_event ticketMidUrlEntry).event_type = "ticketing" ∧
    (parse_event ticketMidUrlEntry).ticket_url = none := by
  constructor <;> decide

/-- Claim C6 amended: `ticketUrl` is the first body line whose trimmed
form starts with `http` (returned trimmed); extraction is always
attempted for ticketing events and otherwise only when the lower-cased
body contains `"bilhete"`. The mid-line-URL body yields no URL for
either event type (the URL is not at the start of its line), while a
ticketing body carrying the URL on its own line yields it. -/
theorem C6_ticket_url_scope :
    (∀ e : RawEntry,
      (parse_event e).ticket_url =
        (if (parse_event e).event_type = "ticketing" then extract_ticket_url e.description
         else if containsSub (lowerL e.description.data) "bilhete".data then
           extract_ticket_url e.description
         else none)) ∧
    (parse_event otherMidUrlEntry).event_type = "other" ∧
    (parse_event otherMidUrlEntry).ticket_url = none ∧
    (parse_event ticketOwnLineEntry).event_type = "ticketing" ∧
    (parse_event ticketOwnLineEntry).ticket_url = some "https://x/y" := by
  refine ⟨?_, by decide, by decide, by decide, by decide⟩
  intro e
  simp only [parse_event]
  split
  · rw [if_pos rfl]
  · rw [if_neg (parse_summary_ne_ticketing e.summary)]

/-! ## Claim C8 (confirmed) -/

/-- Claim C8: the football fallback runs only for `"match"` records whose
sport the title parser left absent, and then: it sets
`sport = "Futebol"` exactly when the title carries a football emoji or
the lower-cased competition contains a configured football-competition
keyword; when it does so with the squad label still absent, the label
becomes `"Feminino"` on a feminine keyword in the lower-cased
competition or title, stays absent on a youth/reserve keyword in the
title, and defaults to `"Masculino"` otherwise. -/
theorem C8_fallback :
    (∀ e : RawEntry,
      is_ticketing_event (some e.summary) (some e.description) (entry_header e).1 = false →
      ((parse_event e).sport, (parse_event e).squad_label) =
        (if (parse_summary e.summary).event_type == "match"
              && (parse_summary e.summary).sport.isNone then
           football_fallback e.summary (entry_header e).1
             (parse_summary e.summary).sport (parse_summary e.summary).squad_label
         else ((parse_summary e.summary).sport, (parse_summary e.summary).squad_label))) ∧
    (∀ (su : String) (c sq : Option String),
      (looksLikeFootball su c = false → football_fallback su c none sq = (none, sq)) ∧
      (looksLikeFootball su c = true → (football_fallback su c none sq).1 = some "Futebol") ∧
      (looksLikeFootball su c = true → ∀ x, sq = some x →
        (football_fallback su c none sq).2 = some x) ∧
      (looksLikeFootball su c = true → sq = none →
        (football_fallback su c none sq).2 =
          (if feminineSignal su c then some "Feminino"
           else if youthSignal su then none
           else some "Masculino"))) := by
  constructor
  · intro e h
    simp only [parse_event]
    rw [if_neg (by rw [h]; exact Bool.false_ne_true)]
  · intro su c sq
    refine ⟨?_, ?_, ?_, ?_⟩
    · intro h
      unfold football_fallback
      rw [if_neg (by rw [h]; exact Bool.false_ne_true)]
    · intro h
      unfold football_fallback
      rw [if_pos h]
    · intro h x hx
      unfold football_fallback
      rw [if_pos h, hx]
    · intro h hsq
      unfold football_fallback
      rw [if_pos h, hsq]

/-- Witness for C8: the emoji-only fixture title gets
`sport = "Futebol"` and the default `"Masculino"` squad label from the
fallback. -/
theorem C8_fallback_witness :
    ((parse_event fallbackEntry).sport, (parse_event fallbackEntry).squad_label) =
      (some "Futebol", some "Masculino") := by
  have h := C8_fallback.1 fallbackEntry (by decide)
  rw [h]
  decide

end BenficaCal
